import Mathlib

/-!
Shallow embedding of `src/godot_bridge/client.py` (godot-bridge-cli), the
synchronous WebSocket JSON-RPC client for the Godot editor, together with
proofs of the behavioural properties claimed by the specification.

Modelling conventions:
* JSON values (the results of Python's `json.loads`) are the inductive
  type `Json`; numbers are modelled as integers, which covers every
  number the client manipulates (ports, error codes, ids).
* Python dicts appear as association lists with unique keys, in document
  order; `dict.get` is `lookup` / `lookupD`.
* The WebSocket is modelled by the sequence of frames it will deliver;
  each frame is `Option Json`: `none` stands for a text that is not valid
  JSON (`json.loads` raises `JSONDecodeError`), `some v` for a decoded
  document.
* Exceptions become explicit outcome constructors
  (`CallOutcome.notConnected` for `RuntimeError("Not connected to
  Godot")`, `CallOutcome.rpcError` for `RPCError`, `decodeFailure` for a
  propagating `JSONDecodeError`, `attributeError` for `.get` called on a
  non-dict).
-/

namespace GodotBridge

/-- JSON values as produced by Python's `json.loads`. -/
inductive Json where
  | null
  | bool (b : Bool)
  | num (n : Int)
  | str (s : String)
  | arr (elems : List Json)
  | obj (fields : List (String × Json))

/-- Python `dict.get(key)` on a JSON object: the value bound to `key`,
if present (`none` models Python `None`). -/
def lookup (fields : List (String × Json)) (key : String) : Option Json :=
  match fields with
  | [] => none
  | (k, v) :: rest => if k = key then some v else lookup rest key

/-- Python `dict.get(key, dflt)`. -/
def lookupD (fields : List (String × Json)) (key : String) (dflt : Json) : Json :=
  (lookup fields key).getD dflt

/-- Python truthiness of a JSON value: `None`, `False`, `0`, the empty
string, the empty list and the empty dict are falsy, everything else is
truthy. -/
def pyTruthy : Json → Bool
  | .null => false
  | .bool b => b
  | .num n => n != 0
  | .str s => s != ""
  | .arr es => !es.isEmpty
  | .obj fs => !fs.isEmpty

/-- Python `==` between the result of `dict.get` (a JSON value or `None`)
and a Python string: only a JSON string with the same characters compares
equal. -/
def pyEqStr (v : Option Json) (s : String) : Bool :=
  match v with
  | some (.str t) => t == s
  | _ => false

/-- The decimal digit characters used by Python's `str()` on integers. -/
def digitChar : Nat → Char
  | 0 => '0'
  | 1 => '1'
  | 2 => '2'
  | 3 => '3'
  | 4 => '4'
  | 5 => '5'
  | 6 => '6'
  | 7 => '7'
  | 8 => '8'
  | 9 => '9'
  | _ => '?'

/-- Little-endian decimal digit characters of `n`, computed with explicit
fuel so that the kernel can evaluate it; `decimalAux fuel n` is correct
whenever `n ≤ fuel`. -/
def decimalAux : Nat → Nat → List Char
  | 0, _ => []
  | fuel + 1, n =>
    if n = 0 then [] else digitChar (n % 10) :: decimalAux fuel (n / 10)

/-- Python `str()` on a nonnegative integer: decimal digits, most
significant first. -/
def natToDecimal (n : Nat) : String :=
  if n = 0 then "0" else String.mk (decimalAux n n).reverse

/-- Python `str()` on an integer. -/
def intToDecimal (i : Int) : String :=
  if i < 0 then "-" ++ natToDecimal i.natAbs else natToDecimal i.natAbs

/-- Single-quote character, used by Python `repr` of strings. -/
def squote : String :=
  (Char.ofNat 39).toString

mutual

/-- Python `repr()` of a JSON value, as used by `str()` on lists and
dicts (escaping inside string literals is not modelled; no claim
exercises it). -/
def pyRepr : Json → String
  | .null => "None"
  | .bool true => "True"
  | .bool false => "False"
  | .num n => intToDecimal n
  | .str s => squote ++ s ++ squote
  | .arr es => "[" ++ pyReprElems es ++ "]"
  | .obj fs => "\x7b" ++ pyReprFields fs ++ "\x7d"

/-- Comma-separated `repr` of list elements. -/
def pyReprElems : List Json → String
  | [] => ""
  | [e] => pyRepr e
  | e :: rest => pyRepr e ++ ", " ++ pyReprElems rest

/-- Comma-separated `repr` of dict entries. -/
def pyReprFields : List (String × Json) → String
  | [] => ""
  | [(k, v)] => squote ++ k ++ squote ++ ": " ++ pyRepr v
  | (k, v) :: rest =>
    squote ++ k ++ squote ++ ": " ++ pyRepr v ++ ", " ++ pyReprFields rest

end

/-- Python `str()` of a JSON value, as interpolated by the f-string of
the port override in `_load_config`. -/
def pyStr : Json → String
  | .null => "None"
  | .bool true => "True"
  | .bool false => "False"
  | .num n => intToDecimal n
  | .str s => s
  | .arr es => pyRepr (.arr es)
  | .obj fs => pyRepr (.obj fs)

/-- Characters removed by Python's `str.strip()` with no argument (ASCII
whitespace; formfeed and vertical tab included). -/
def isSpaceChar (c : Char) : Bool :=
  (c == ' ') || (c == '\t') || (c == '\n') || (c == '\r') ||
    (c == '\x0b') || (c == '\x0c')

/-- Python `str.strip()`: drop leading and trailing whitespace. -/
def pyStrip (s : String) : String :=
  String.mk (((s.data.dropWhile isSpaceChar).reverse.dropWhile
    isSpaceChar).reverse)

/-- One WebSocket text frame, after `json.loads`: `none` when the text is
not valid JSON. -/
abbrev Frame := Option Json

/-- Outcome of `GodotClient.call`: a returned result, a raised
`RPCError` (code, message, data as stored on the exception), a
propagating `json.JSONDecodeError`, an `AttributeError` from calling
`.get` on a non-dict, the `RuntimeError` raised when not connected, or
an indefinite block on `recv` (the frame list was exhausted without a
matching id). -/
inductive CallOutcome where
  | success (result : Json)
  | rpcError (code message data : Json)
  | decodeFailure
  | attributeError
  | notConnected
  | blocked

/-- A serialized JSON-RPC request as built by `GodotClient.call`. -/
structure Request where
  jsonrpc : String
  id : String
  method : String
  params : List (String × Json)

/-- Mutable state of one `GodotClient` instance: `ws` is the connection
handle (`none` = not connected), `request_id` the request counter,
`authenticated` the session flag. -/
structure ClientState where
  ws : Option Unit
  request_id : Nat
  authenticated : Bool
deriving DecidableEq

/-- State of a freshly constructed `GodotClient` (`__init__`). -/
def initState : ClientState :=
  { ws := none, request_id := 0, authenticated := false }

/-- The receive loop of `GodotClient.call`: take the next frame, parse
it, compare `response.get("id")` against this call's id; on mismatch
discard the frame and receive again. Returns the outcome together with
the number of frames received. -/
def recvLoop (callId : String) : List Frame → CallOutcome × Nat
  | [] => (.blocked, 0)
  | none :: _ => (.decodeFailure, 1)
  | some (.obj fields) :: rest =>
    if pyEqStr (lookup fields "id") callId then
      match lookup fields "error" with
      | some (.obj efields) =>
        (.rpcError (lookupD efields "code" (.num (-1)))
          (lookupD efields "message" (.str "Unknown error"))
          (lookupD efields "data" .null), 1)
      | some _ => (.attributeError, 1)
      | none => (.success (lookupD fields "result" (.obj [])), 1)
    else
      let r := recvLoop callId rest
      (r.1, r.2 + 1)
  | some _ :: _ => (.attributeError, 1)

/-- Result of one `GodotClient.call`: the request written to the socket
(`none` when no send happened), the outcome, the number of frames
received, and the client state afterwards. -/
structure CallResult where
  sent : Option Request
  outcome : CallOutcome
  consumed : Nat
  state : ClientState

/-- `GodotClient.call`, as a function of the client state, the call's
method and params (`none` models Python `None`, replaced by the empty
dict), and the frames the socket will deliver. -/
def call (st : ClientState) (method : String)
    (params : Option (List (String × Json))) (incoming : List Frame) :
    CallResult :=
  match st.ws with
  | none => ⟨none, .notConnected, 0, st⟩
  | some _ =>
    let rid := st.request_id + 1
    let req : Request := ⟨"2.0", natToDecimal rid, method, params.getD []⟩
    let r := recvLoop req.id incoming
    ⟨some req, r.1, r.2, { st with request_id := rid }⟩

/-- Result of `GodotClient.close`: the state afterwards and whether
`self.ws.close()` was performed on the underlying socket. -/
structure CloseResult where
  state : ClientState
  closedSocket : Bool
deriving DecidableEq

/-- GodotClient.close: if a connection handle is present, close the
socket, drop the handle and clear the authenticated flag; otherwise do
nothing. -/
def close (st : ClientState) : CloseResult :=
  match st.ws with
  | some _ => ⟨{ ws := none, request_id := st.request_id, authenticated := false }, true⟩
  | none => ⟨st, false⟩

/-- The params dict sent by the `auth.hello` handshake in
`GodotClient.connect`. -/
def authParams (token : String) : List (String × Json) :=
  [("token", .str token), ("client", .str "godot-bridge-cli"),
    ("version", .str "1.0.0")]

/-- Result of `GodotClient.connect`: the returned boolean and the client
state afterwards. -/
structure ConnectResult where
  ok : Bool
  state : ClientState

/-- GodotClient.connect: open the socket (`socketConn` is the result of
`ws_client.connect`, `none` when it raises), store the handle, then run
the `auth.hello` call on the frames `incoming`; set `authenticated` when
`result.get("ok")` is truthy. Every exception inside the body is caught
by the `except` clause and turned into a `false` return. -/
def connect (st : ClientState) (token : String) (socketConn : Option Unit)
    (incoming : List Frame) : ConnectResult :=
  match socketConn with
  | none => ⟨false, st⟩
  | some c =>
    let r := call { st with ws := some c } "auth.hello"
      (some (authParams token)) incoming
    match r.outcome with
    | .success (.obj fields) =>
      if pyTruthy (lookupD fields "ok" .null) then
        ⟨true, { r.state with authenticated := true }⟩
      else
        ⟨false, r.state⟩
    | _ => ⟨false, r.state⟩

/-- Connection configuration (`GodotConfig`). The token is kept as the
dynamic Python value bound to the `token` variable; in every run the
claims exercise it is a string. -/
structure GodotConfig where
  ws_url : String
  token : Json
  token_file : String

/-- Exceptions `_load_config` can let escape. -/
inductive PyError where
  | attributeError
deriving DecidableEq

/-- GodotClient._load_config. The three environment variables are
`Option String` (`none` = unset); `fileExists` models
`token_path.exists()`, `fileText` the content returned by `read_text()`,
and `parsed` the result of `json.loads` on the stripped content (`none`
when it raises `JSONDecodeError`). A parse result that is not a dict
makes `data.get` raise an uncaught `AttributeError`. -/
def load_config (env_ws_url env_token env_token_file : Option String)
    (fileExists : Bool) (fileText : String) (parsed : Option Json) :
    Except PyError GodotConfig :=
  let ws_url := env_ws_url.getD "ws://127.0.0.1:49631"
  let token := env_token.getD ""
  let token_file := env_token_file.getD ""
  if token = "" ∧ token_file ≠ "" then
    if fileExists then
      let content := pyStrip fileText
      match parsed with
      | some (.obj fields) =>
        let token2 := lookupD fields "token" (.str content)
        match lookup fields "port" with
        | some p => .ok ⟨"ws://127.0.0.1:" ++ pyStr p, token2, token_file⟩
        | none => .ok ⟨ws_url, token2, token_file⟩
      | some _ => .error .attributeError
      | none => .ok ⟨ws_url, .str content, token_file⟩
    else
      .ok ⟨ws_url, .str token, token_file⟩
  else
    .ok ⟨ws_url, .str token, token_file⟩

/-- One call in a sequence of calls on a single client instance: the
method and params passed in, and the frames the socket delivers during
this call's receive loop. -/
structure CallSpec where
  method : String
  params : Option (List (String × Json))
  incoming : List Frame

/-- Run a sequence of calls on one client instance, collecting the sent
requests (in order) and the final state. -/
def runCalls (st : ClientState) : List CallSpec → List (Option Request) × ClientState
  | [] => ([], st)
  | c :: rest =>
    let r := call st c.method c.params c.incoming
    let s := runCalls r.state rest
    (r.sent :: s.1, s.2)

/-- The JSON-RPC ids written to the socket by a sequence of calls
(`none` for a call that sent nothing). -/
def sentIds (st : ClientState) (specs : List CallSpec) : List (Option String) :=
  (runCalls st specs).1.map (Option.map Request.id)

/-- Whether the receive loop discards this frame and keeps waiting: a
decoded JSON dict whose id does not compare equal to the awaited id. -/
def discardedB (callId : String) : Frame → Bool
  | some (.obj fields) => !(pyEqStr (lookup fields "id") callId)
  | _ => false

/-- Whether a JSON value is a Python dict (and hence has a `.get`
attribute). -/
def isDict : Json → Bool
  | .obj _ => true
  | _ => false

theorem digitChar_inj : ∀ d1, d1 < 10 → ∀ d2, d2 < 10 →
    digitChar d1 = digitChar d2 → d1 = d2 := by decide

theorem decimalAux_eq :
    ∀ (fuel n : Nat), n ≤ fuel →
      decimalAux fuel n = (Nat.digits 10 n).map digitChar := by
  intro fuel
  induction fuel with
  | zero =>
    intro n h
    interval_cases n
    simp [decimalAux]
  | succ fuel ih =>
    intro n h
    by_cases hn : n = 0
    · subst hn; simp [decimalAux]
    · have hdiv : n / 10 ≤ fuel := by
        have := Nat.div_lt_self (Nat.pos_of_ne_zero hn) (by norm_num : 1 < 10)
        omega
      show (if n = 0 then [] else digitChar (n % 10) :: decimalAux fuel (n / 10))
          = (Nat.digits 10 n).map digitChar
      rw [if_neg hn, ih _ hdiv,
        Nat.digits_def' (by norm_num : (1 : ℕ) < 10) (Nat.pos_of_ne_zero hn)]
      simp

theorem map_digitChar_inj :
    ∀ (l1 l2 : List Nat), (∀ d ∈ l1, d < 10) → (∀ d ∈ l2, d < 10) →
      l1.map digitChar = l2.map digitChar → l1 = l2 := by
  intro l1
  induction l1 with
  | nil =>
    intro l2 _ _ h
    cases l2 with
    | nil => rfl
    | cons b l2 => simp at h
  | cons a l1 ih =>
    intro l2 h1 h2 h
    cases l2 with
    | nil => simp at h
    | cons b l2 =>
      simp only [List.map_cons, List.cons.injEq] at h
      have hab : a = b :=
        digitChar_inj a (h1 a (by simp)) b (h2 b (by simp)) h.1
      subst hab
      rw [ih l2 (fun d hd => h1 d (by simp [hd]))
        (fun d hd => h2 d (by simp [hd])) h.2]

theorem decimalAux_self_ne_zero_str (n : Nat) (hn : n ≠ 0) :
    String.mk (decimalAux n n).reverse ≠ "0" := by
  intro h
  have hdata : (decimalAux n n).reverse = ['0'] := congrArg String.data h
  have hlist : decimalAux n n = ['0'] := by
    have := congrArg List.reverse hdata
    simpa using this
  rw [decimalAux_eq n n le_rfl] at hlist
  have hdig : Nat.digits 10 n = [0] := by
    cases hd : Nat.digits 10 n with
    | nil => rw [hd] at hlist; simp at hlist
    | cons d l =>
      rw [hd] at hlist
      cases l with
      | nil =>
        simp only [List.map_cons, List.map_nil, List.cons.injEq, and_true] at hlist
        have hdlt : d < 10 :=
          Nat.digits_lt_base (by norm_num) (by rw [hd]; exact List.mem_cons_self d [])
        have : d = 0 := digitChar_inj d hdlt 0 (by norm_num) hlist
        rw [this]
      | cons d2 l2 => simp at hlist
  have := Nat.ofDigits_digits 10 n
  rw [hdig] at this
  simp [Nat.ofDigits] at this
  exact hn this.symm

theorem natToDecimal_inj : Function.Injective natToDecimal := by
  intro m n h
  unfold natToDecimal at h
  by_cases hm : m = 0 <;> by_cases hn : n = 0
  · rw [hm, hn]
  · rw [if_pos hm, if_neg hn] at h
    exact absurd h.symm (decimalAux_self_ne_zero_str n hn)
  · rw [if_neg hm, if_pos hn] at h
    exact absurd h (decimalAux_self_ne_zero_str m hm)
  · rw [if_neg hm, if_neg hn] at h
    have hdata : (decimalAux m m).reverse = (decimalAux n n).reverse :=
      congrArg String.data h
    have hlist : decimalAux m m = decimalAux n n :=
      List.reverse_injective hdata
    rw [decimalAux_eq m m le_rfl, decimalAux_eq n n le_rfl] at hlist
    have hdig : Nat.digits 10 m = Nat.digits 10 n :=
      map_digitChar_inj _ _
        (fun d hd => Nat.digits_lt_base (by norm_num) hd)
        (fun d hd => Nat.digits_lt_base (by norm_num) hd) hlist
    have := congrArg (Nat.ofDigits 10) hdig
    rw [Nat.ofDigits_digits, Nat.ofDigits_digits] at this
    exact_mod_cast this

theorem sentIds_eq :
    ∀ (specs : List CallSpec) (st : ClientState), st.ws.isSome = true →
      sentIds st specs
        = (List.range specs.length).map
            (fun k => some (natToDecimal (st.request_id + (k + 1)))) := by
  intro specs
  induction specs with
  | nil => intro st _; simp [sentIds, runCalls]
  | cons c rest ih =>
    intro st hws
    obtain ⟨u, hu⟩ := Option.isSome_iff_exists.mp hws
    have htail := ih { st with request_id := st.request_id + 1 } (by simp [hu])
    rw [hu] at htail
    simp only [sentIds] at htail ⊢
    simp only [runCalls, call, hu, List.map_cons, Option.map_some]
    rw [List.length_cons, List.range_succ_eq_map, List.map_cons, List.map_map]
    refine congrArg₂ List.cons (by simp) ?_
    rw [htail]
    apply List.map_congr_left
    intro k hk
    simp only [Function.comp_apply, Nat.succ_eq_add_one]
    have harith : st.request_id + 1 + (k + 1) = st.request_id + (k + 1 + 1) := by
      omega
    rw [harith]

/-- C1: on one client instance with an open connection, the id sent by
the k-th call (0-indexed here) is the initial request counter plus k+1,
stringified in decimal; the ids are the encodings of strictly increasing
integers and no id is ever reused (the sent-id list has no duplicates).
Starting from a fresh client (counter 0) the ids are "1", "2", ... -/
theorem C1_call_ids (st : ClientState) (specs : List CallSpec)
    (hws : st.ws.isSome = true) :
    sentIds st specs
      = (List.range specs.length).map
          (fun k => some (natToDecimal (st.request_id + (k + 1))))
    ∧ (sentIds st specs).Nodup := by
  have h := sentIds_eq specs st hws
  refine ⟨h, ?_⟩
  rw [h]
  refine List.Nodup.map ?_ (List.nodup_range _)
  intro a b hab
  have := natToDecimal_inj (Option.some.inj hab)
  omega

/-- Witness for C1 at a fresh connected client: two calls send ids
"1" and "2". -/
theorem C1_call_ids_witness :
    (({ ws := some (), request_id := 0, authenticated := false } :
        ClientState)).ws.isSome = true
    ∧ (sentIds { ws := some (), request_id := 0, authenticated := false }
          [⟨"scene.open", none, []⟩, ⟨"project.get_info", none, []⟩]
        = (List.range 2).map (fun k => some (natToDecimal (0 + (k + 1))))
      ∧ (sentIds { ws := some (), request_id := 0, authenticated := false }
          [⟨"scene.open", none, []⟩, ⟨"project.get_info", none, []⟩]).Nodup) :=
  ⟨rfl, C1_call_ids { ws := some (), request_id := 0, authenticated := false }
    [⟨"scene.open", none, []⟩, ⟨"project.get_info", none, []⟩] rfl⟩

/-- C2: frames whose id does not compare equal to the awaited id are
discarded: they do not change the call's outcome, and the loop performs
one further receive per discarded frame before the outcome is determined
by the remaining frames alone. -/
theorem C2_recvLoop_discards (callId : String) (junk rest : List Frame)
    (h : junk.all (discardedB callId) = true) :
    (recvLoop callId (junk ++ rest)).1 = (recvLoop callId rest).1
    ∧ (recvLoop callId (junk ++ rest)).2
        = junk.length + (recvLoop callId rest).2 := by
  induction junk with
  | nil => simp
  | cons f junk ih =>
    rw [List.all_cons, Bool.and_eq_true] at h
    obtain ⟨hf, hrest⟩ := h
    have ihr := ih hrest
    match f, hf with
    | some (.obj fields), hf =>
      have hmis : pyEqStr (lookup fields "id") callId = false := by
        simpa [discardedB] using hf
      simp only [List.cons_append, recvLoop, hmis, Bool.false_eq_true,
        if_false, List.length_cons]
      refine ⟨ihr.1, ?_⟩
      have h2 : (recvLoop callId (junk.append rest)).2
          = junk.length + (recvLoop callId rest).2 := ihr.2
      omega

/-- Witness for C2: a stale frame with id "7" ahead of the real response
with id "1" is dropped and the outcome equals the outcome on the real
response alone. -/
theorem C2_recvLoop_discards_witness :
    ([some (Json.obj [("id", Json.str "7")])] : List Frame).all
        (discardedB "1") = true
    ∧ ((recvLoop "1" ([some (Json.obj [("id", Json.str "7")])]
          ++ [some (Json.obj [("id", Json.str "1"),
                ("result", Json.str "v")])])).1
        = (recvLoop "1" [some (Json.obj [("id", Json.str "1"),
            ("result", Json.str "v")])]).1
      ∧ (recvLoop "1" ([some (Json.obj [("id", Json.str "7")])]
          ++ [some (Json.obj [("id", Json.str "1"),
                ("result", Json.str "v")])])).2
        = [some (Json.obj [("id", Json.str "7")])].length
          + (recvLoop "1" [some (Json.obj [("id", Json.str "1"),
              ("result", Json.str "v")])]).2) :=
  ⟨rfl, C2_recvLoop_discards "1" [some (Json.obj [("id", Json.str "7")])]
    [some (Json.obj [("id", Json.str "1"), ("result", Json.str "v")])] rfl⟩

/-- C3: a matched response carrying an error object with a code and a
message makes the call fail with an RPCError holding exactly that code,
that message, and the error object's data (Python None when absent),
distinct from a decode failure and from the not-connected failure. -/
theorem C3_recvLoop_error (callId : String)
    (fields efields : List (String × Json)) (rest : List Frame)
    (c : Int) (m : String)
    (hid : pyEqStr (lookup fields "id") callId = true)
    (herr : lookup fields "error" = some (.obj efields))
    (hc : lookup efields "code" = some (.num c))
    (hm : lookup efields "message" = some (.str m)) :
    (recvLoop callId (some (.obj fields) :: rest)).1
      = .rpcError (.num c) (.str m) (lookupD efields "data" .null)
    ∧ (recvLoop callId (some (.obj fields) :: rest)).1
        ≠ .decodeFailure
    ∧ (recvLoop callId (some (.obj fields) :: rest)).1
        ≠ .notConnected := by
  have hmain : (recvLoop callId (some (.obj fields) :: rest)).1
      = .rpcError (.num c) (.str m) (lookupD efields "data" .null) := by
    simp [recvLoop, hid, herr, lookupD, hc, hm]
  refine ⟨hmain, ?_, ?_⟩ <;> rw [hmain] <;> intro h <;> cases h

/-- Witness for C3, the spec's error scenario: a reply with error code
-32601 and message "Method not found" yields exactly that RPCError. -/
theorem C3_recvLoop_error_witness :
    pyEqStr (lookup [("id", Json.str "2"),
        ("error", Json.obj [("code", Json.num (-32601)),
          ("message", Json.str "Method not found")])] "id") "2" = true
    ∧ lookup [("id", Json.str "2"),
        ("error", Json.obj [("code", Json.num (-32601)),
          ("message", Json.str "Method not found")])] "error"
      = some (.obj [("code", Json.num (-32601)),
          ("message", Json.str "Method not found")])
    ∧ ((recvLoop "2" [some (.obj [("id", Json.str "2"),
          ("error", Json.obj [("code", Json.num (-32601)),
            ("message", Json.str "Method not found")])])]).1
        = .rpcError (.num (-32601)) (.str "Method not found")
            (lookupD [("code", Json.num (-32601)),
              ("message", Json.str "Method not found")] "data" .null)
      ∧ (recvLoop "2" [some (.obj [("id", Json.str "2"),
          ("error", Json.obj [("code", Json.num (-32601)),
            ("message", Json.str "Method not found")])])]).1
          ≠ .decodeFailure
      ∧ (recvLoop "2" [some (.obj [("id", Json.str "2"),
          ("error", Json.obj [("code", Json.num (-32601)),
            ("message", Json.str "Method not found")])])]).1
          ≠ .notConnected) :=
  ⟨rfl, rfl, C3_recvLoop_error "2" _ _ [] (-32601) "Method not found"
    rfl rfl rfl rfl⟩

/-- C7: a matched response with no error member makes the call return
the response's result value, and the empty mapping when the result
member is absent. -/
theorem C7_recvLoop_result (callId : String)
    (fields : List (String × Json)) (rest : List Frame)
    (hid : pyEqStr (lookup fields "id") callId = true)
    (herr : lookup fields "error" = none) :
    (recvLoop callId (some (.obj fields) :: rest)).1
      = .success (lookupD fields "result" (.obj []))
    ∧ (lookup fields "result" = none →
        (recvLoop callId (some (.obj fields) :: rest)).1
          = .success (.obj [])) := by
  have hmain : (recvLoop callId (some (.obj fields) :: rest)).1
      = .success (lookupD fields "result" (.obj [])) := by
    simp [recvLoop, hid, herr]
  refine ⟨hmain, fun hres => ?_⟩
  rw [hmain, lookupD, hres]
  rfl

/-- Witness for C7: a matched response with no result member returns the
empty mapping. -/
theorem C7_recvLoop_result_witness :
    pyEqStr (lookup [("id", Json.str "1")] "id") "1" = true
    ∧ lookup [("id", Json.str "1")] "error" = none
    ∧ ((recvLoop "1" [some (.obj [("id", Json.str "1")])]).1
        = .success (lookupD [("id", Json.str "1")] "result" (.obj []))
      ∧ (lookup [("id", Json.str "1")] "result" = none →
          (recvLoop "1" [some (.obj [("id", Json.str "1")])]).1
            = .success (.obj []))) :=
  ⟨rfl, rfl, C7_recvLoop_result "1" [("id", Json.str "1")] [] rfl rfl⟩

/-- C8: a call on a client whose connection handle is absent fails with
the not-connected RuntimeError, sends nothing, receives nothing, and
leaves the state unchanged. -/
theorem C8_call_notConnected (st : ClientState) (m : String)
    (p : Option (List (String × Json))) (incoming : List Frame)
    (h : st.ws = none) :
    call st m p incoming = ⟨none, .notConnected, 0, st⟩ := by
  simp [call, h]

/-- Witness for C8: a call on a freshly constructed client. -/
theorem C8_call_notConnected_witness :
    initState.ws = none
    ∧ call initState "project.get_info" none
        [some (.obj [("id", Json.str "1")])]
      = ⟨none, .notConnected, 0, initState⟩ :=
  ⟨rfl, C8_call_notConnected initState "project.get_info" none
    [some (.obj [("id", Json.str "1")])] rfl⟩

theorem call_state_ws (st : ClientState) (m : String)
    (p : Option (List (String × Json))) (incoming : List Frame) :
    (call st m p incoming).state.ws = st.ws := by
  cases h : st.ws <;> simp [call, h]

theorem call_state_authenticated (st : ClientState) (m : String)
    (p : Option (List (String × Json))) (incoming : List Frame) :
    (call st m p incoming).state.authenticated = st.authenticated := by
  cases h : st.ws <;> simp [call, h]

theorem connect_state_ws (st : ClientState) (token : String) (u : Unit)
    (incoming : List Frame) :
    (connect st token (some u) incoming).state.ws = some u := by
  simp only [connect]
  split
  · split
    · have := call_state_ws { st with ws := some u } "auth.hello"
        (some (authParams token)) incoming
      simpa using this
    · have := call_state_ws { st with ws := some u } "auth.hello"
        (some (authParams token)) incoming
      simpa using this
  · have := call_state_ws { st with ws := some u } "auth.hello"
      (some (authParams token)) incoming
    simpa using this

/-- C4 (amended): with the authenticated flag initially false, `connect`
sets it if and only if the matched `auth.hello` result is a JSON object
whose `ok` member is present and Python-truthy (`result.get("ok")` is
checked by truthiness: `1`, a non-empty string, etc. also pass, not only
JSON `true`). -/
theorem C4_connect_auth_truthy (st : ClientState) (token : String)
    (conn : Option Unit) (incoming : List Frame)
    (hauth : st.authenticated = false) :
    (connect st token conn incoming).state.authenticated = true
      ↔ (∃ u fields, conn = some u
          ∧ (call { st with ws := some u } "auth.hello"
              (some (authParams token)) incoming).outcome
            = .success (.obj fields)
          ∧ pyTruthy (lookupD fields "ok" .null) = true) := by
  cases conn with
  | none =>
    simp [connect, hauth]
  | some u =>
    simp only [connect]
    split
    case _ fields heq =>
      by_cases hok : pyTruthy (lookupD fields "ok" .null) = true
      · rw [if_pos hok]
        constructor
        · intro _
          exact ⟨u, fields, by trivial, heq, hok⟩
        · intro _
          rfl
      · rw [if_neg hok]
        constructor
        · intro h
          rw [call_state_authenticated, hauth] at h
          cases h
        · rintro ⟨u2, fields2, hconn, houtcome, htruthy⟩
          have hff : fields = fields2 := by
            rw [heq] at houtcome
            injection houtcome with h1
            injection h1
          subst hff
          exact absurd htruthy hok
    case _ hne =>
      constructor
      · intro h
        rw [call_state_authenticated, hauth] at h
        cases h
      · rintro ⟨u2, fields2, hconn, houtcome, htruthy⟩
        exact absurd houtcome (hne fields2)

/-- Witness for C4's amended theorem, the spec's round-trip scenario:
the server answers id "1" with result ok true. -/
theorem C4_connect_auth_truthy_witness :
    initState.authenticated = false
    ∧ ((connect initState "abc" (some ())
          [some (.obj [("id", Json.str "1"),
            ("result", Json.obj [("ok", Json.bool true),
              ("editor_version", Json.str "4.3")])])]).state.authenticated
          = true
        ↔ (∃ u fields, some () = some u
            ∧ (call { initState with ws := some u } "auth.hello"
                (some (authParams "abc"))
                [some (.obj [("id", Json.str "1"),
                  ("result", Json.obj [("ok", Json.bool true),
                    ("editor_version", Json.str "4.3")])])]).outcome
              = .success (.obj fields)
            ∧ pyTruthy (lookupD fields "ok" .null) = true)) :=
  ⟨rfl, C4_connect_auth_truthy initState "abc" (some ())
    [some (.obj [("id", Json.str "1"),
      ("result", Json.obj [("ok", Json.bool true),
        ("editor_version", Json.str "4.3")])])] rfl⟩

/-- Counterexample to C4 as stated: a handshake result whose `ok` member
is the number 1 — not the JSON boolean `true` — still sets the
authenticated flag, because the code checks `result.get("ok")` by
truthiness. -/
theorem C4_counterexample :
    (connect initState "t" (some ())
        [some (.obj [("id", Json.str "1"),
          ("result", Json.obj [("ok", Json.num 1)])])]).state.authenticated
      = true
    ∧ lookup [("ok", Json.num 1)] "ok" = some (Json.num 1)
    ∧ Json.num 1 ≠ Json.bool true := by
  refine ⟨rfl, rfl, ?_⟩
  intro h
  exact Json.noConfusion h

/-- C5 (amended): when the token file is a JSON object with a `port`
member, the resulting endpoint is `ws://127.0.0.1:<port>` — the port is
taken from the file, but the host and scheme of the previously resolved
endpoint are replaced by the hardcoded `ws://127.0.0.1`, not
preserved. -/
theorem C5_port_override (env_ws : Option String) (tf raw : String)
    (fields : List (String × Json)) (p : Json)
    (htf : tf ≠ "") (hport : lookup fields "port" = some p) :
    load_config env_ws none (some tf) true raw (some (.obj fields))
      = .ok ⟨"ws://127.0.0.1:" ++ pyStr p,
          lookupD fields "token" (.str (pyStrip raw)), tf⟩ := by
  simp [load_config, htf, hport]

/-- Witness for C5's amended theorem: port 7777 from the token file
yields endpoint ws://127.0.0.1:7777. -/
theorem C5_port_override_witness :
    ("godot.json" : String) ≠ ""
    ∧ lookup [("token", Json.str "s3cret"), ("port", Json.num 7777)] "port"
        = some (Json.num 7777)
    ∧ load_config (some "ws://10.0.0.5:42") none (some "godot.json") true
        "\x7b\"token\": \"s3cret\", \"port\": 7777\x7d"
        (some (.obj [("token", Json.str "s3cret"),
          ("port", Json.num 7777)]))
      = .ok ⟨"ws://127.0.0.1:" ++ pyStr (Json.num 7777),
          lookupD [("token", Json.str "s3cret"), ("port", Json.num 7777)]
            "token"
            (.str (pyStrip "\x7b\"token\": \"s3cret\", \"port\": 7777\x7d")),
          "godot.json"⟩ :=
  ⟨by decide, rfl, C5_port_override (some "ws://10.0.0.5:42") "godot.json"
    "\x7b\"token\": \"s3cret\", \"port\": 7777\x7d"
    [("token", Json.str "s3cret"), ("port", Json.num 7777)]
    (Json.num 7777) (by decide) rfl⟩

/-- Counterexample to C5 as stated: with resolved endpoint
`ws://example.com:1111`, a token-file port 2222 produces
`ws://127.0.0.1:2222`, not the host-preserving `ws://example.com:2222`. -/
theorem C5_counterexample :
    load_config (some "ws://example.com:1111") none (some "tf") true
        "\x7b\"token\": \"t\", \"port\": 2222\x7d"
        (some (.obj [("token", Json.str "t"), ("port", Json.num 2222)]))
      = .ok ⟨"ws://127.0.0.1:2222", .str "t", "tf"⟩
    ∧ ("ws://127.0.0.1:2222" : String) ≠ "ws://example.com:2222" := by
  exact ⟨rfl, by decide⟩

/-- Token resolution following the amended claim's words: an explicit
non-empty token wins; otherwise, with a token file named and existing,
a JSON-object file yields its `token` member — defaulting to the whole
stripped content when that member is absent; valid JSON that is not an
object yields no token at all (config loading raises instead); non-JSON
content yields the stripped content; otherwise the token is empty.
`none` stands for "no configuration is produced". -/
def specTokenResolution (tok tf raw : String) (ex : Bool)
    (parsed : Option Json) : Option Json :=
  if tok ≠ "" then some (.str tok)
  else if tf ≠ "" ∧ ex = true then
    match parsed with
    | some (.obj fields) => some (lookupD fields "token" (.str (pyStrip raw)))
    | some _ => none
    | none => some (.str (pyStrip raw))
  else some (.str "")

/-- C6 (amended): the token resolved by `_load_config` follows exactly
the precedence of `specTokenResolution`. -/
theorem C6_token_precedence (env_ws : Option String) (tok tf raw : String)
    (ex : Bool) (parsed : Option Json) :
    (load_config env_ws (some tok) (some tf) ex raw parsed).toOption.map
        GodotConfig.token
      = specTokenResolution tok tf raw ex parsed := by
  by_cases htok : tok = ""
  · subst htok
    by_cases htf : tf = ""
    · subst htf
      simp [load_config, specTokenResolution, Except.toOption]
    · cases ex with
      | false => simp [load_config, specTokenResolution, htf, Except.toOption]
      | true =>
        cases parsed with
        | none =>
          simp [load_config, specTokenResolution, htf, Except.toOption]
        | some v =>
          cases v with
          | obj fields =>
            cases hp : lookup fields "port" <;>
              simp [load_config, specTokenResolution, htf, Except.toOption,
                hp]
          | null =>
            simp [load_config, specTokenResolution, htf, Except.toOption]
          | bool b =>
            simp [load_config, specTokenResolution, htf, Except.toOption]
          | num n =>
            simp [load_config, specTokenResolution, htf, Except.toOption]
          | str s =>
            simp [load_config, specTokenResolution, htf, Except.toOption]
          | arr es =>
            simp [load_config, specTokenResolution, htf, Except.toOption]
  · simp [load_config, specTokenResolution, htok, Except.toOption]

/-- Counterexample to C6 as stated: a token file whose content is the
JSON object with only a `port` member (no `token` member) resolves to
the raw stripped content as token, where the claimed precedence chain
would resolve to the empty token. -/
theorem C6_counterexample :
    (load_config none none (some "tf") true "\x7b\"port\": 5\x7d"
        (some (.obj [("port", Json.num 5)]))).toOption.map
        GodotConfig.token
      = some (.str "\x7b\"port\": 5\x7d")
    ∧ ("\x7b\"port\": 5\x7d" : String) ≠ "" := by
  exact ⟨rfl, by decide⟩

/-- C9: close is idempotent and safe when already closed, and — on every
state reachable by the client (where a missing handle implies a cleared
flag) — leaves no connection handle, a cleared authenticated flag and an
untouched request counter; a second close performs no socket operation,
a close on an open handle does close the socket, and a close on an
already-closed client is a no-op. -/
theorem C9_close_idempotent (st : ClientState)
    (hinv : st.ws = none → st.authenticated = false) :
    (close st).state.ws = none
    ∧ (close st).state.authenticated = false
    ∧ (close st).state.request_id = st.request_id
    ∧ close (close st).state = ⟨(close st).state, false⟩
    ∧ (st.ws = none → close st = ⟨st, false⟩)
    ∧ (st.ws ≠ none → (close st).closedSocket = true) := by
  cases h : st.ws with
  | none =>
    have ha := hinv h
    refine ⟨?_, ?_, ?_, ?_, ?_, ?_⟩ <;> simp [close, h, ha]
  | some u =>
    refine ⟨?_, ?_, ?_, ?_, ?_, ?_⟩ <;> simp [close, h]

/-- Witness for C9 at an authenticated connected client. -/
theorem C9_close_idempotent_witness :
    ((⟨some (), 5, true⟩ : ClientState).ws = none →
        (⟨some (), 5, true⟩ : ClientState).authenticated = false)
    ∧ ((close ⟨some (), 5, true⟩).state.ws = none
      ∧ (close ⟨some (), 5, true⟩).state.authenticated = false
      ∧ (close ⟨some (), 5, true⟩).state.request_id
          = (⟨some (), 5, true⟩ : ClientState).request_id
      ∧ close (close ⟨some (), 5, true⟩).state
          = ⟨(close ⟨some (), 5, true⟩).state, false⟩
      ∧ ((⟨some (), 5, true⟩ : ClientState).ws = none →
          close ⟨some (), 5, true⟩ = ⟨⟨some (), 5, true⟩, false⟩)
      ∧ ((⟨some (), 5, true⟩ : ClientState).ws ≠ none →
          (close ⟨some (), 5, true⟩).closedSocket = true)) :=
  ⟨fun h => Option.noConfusion h,
    C9_close_idempotent ⟨some (), 5, true⟩ (fun h => Option.noConfusion h)⟩

theorem inv_initState : initState.ws = none → initState.authenticated = false :=
  fun _ => rfl

theorem inv_call (st : ClientState) (m : String)
    (p : Option (List (String × Json))) (incoming : List Frame)
    (hinv : st.ws = none → st.authenticated = false) :
    (call st m p incoming).state.ws = none →
      (call st m p incoming).state.authenticated = false := by
  rw [call_state_ws, call_state_authenticated]
  exact hinv

theorem inv_connect (st : ClientState) (token : String) (conn : Option Unit)
    (incoming : List Frame)
    (hinv : st.ws = none → st.authenticated = false) :
    (connect st token conn incoming).state.ws = none →
      (connect st token conn incoming).state.authenticated = false := by
  cases conn with
  | none => simpa [connect] using hinv
  | some u =>
    intro h
    rw [connect_state_ws] at h
    exact Option.noConfusion h

theorem inv_close (st : ClientState)
    (hinv : st.ws = none → st.authenticated = false) :
    (close st).state.ws = none → (close st).state.authenticated = false := by
  cases h : st.ws with
  | none =>
    simp only [close, h]
    intro _
    exact hinv h
  | some u => simp [close, h]

/-- C10: when no explicit token is supplied and the token file's content
is valid JSON that is not an object, `_load_config` raises an
AttributeError (`data.get` on a non-dict; only `json.JSONDecodeError` is
caught) instead of producing a configuration. -/
theorem C10_load_config_json_nonobject (env_ws : Option String)
    (tf raw : String) (v : Json)
    (htf : tf ≠ "") (hv : isDict v = false) :
    load_config env_ws none (some tf) true raw (some v)
      = .error .attributeError := by
  cases v <;> simp_all [load_config, isDict, htf]

/-- Witness for C10: a token file containing the bare number 42. -/
theorem C10_load_config_json_nonobject_witness :
    ("tf" : String) ≠ ""
    ∧ isDict (Json.num 42) = false
    ∧ load_config none none (some "tf") true "42" (some (Json.num 42))
        = .error .attributeError :=
  ⟨by decide, rfl,
    C10_load_config_json_nonobject none "tf" "42" (Json.num 42)
      (by decide) rfl⟩

end GodotBridge
